import Mathlib

set_option maxRecDepth 100000

/-!
Verification of the ersatz-jjy / ersatz-wwvb time-signal generators.

The definitions below are a shallow embedding of `src/ersatz-jjy.c` and
`src/ersatz-wwvb.c`.  C `struct tm` values are modelled by the `Tm`
structure with `Nat` fields; machine integers are modelled by `Nat`
(with explicit wrap-around where it matters), and C constructs whose
behaviour is undefined (out-of-range shifts on 32-bit `int`) are
modelled by `Option`, returning `none` on the undefined cases.
-/

/-- Model of the C `struct tm` fields used by the programs. -/
structure Tm where
  tm_sec : Nat
  tm_min : Nat
  tm_hour : Nat
  tm_mday : Nat
  tm_mon : Nat
  tm_year : Nat
  tm_wday : Nat
  tm_yday : Nat
deriving DecidableEq

/-- The field ranges of a valid broken-down time (`tm_sec` may be 60
for a leap second). -/
def Tm.Valid (t : Tm) : Prop :=
  t.tm_sec ≤ 60 ∧ t.tm_min ≤ 59 ∧ t.tm_hour ≤ 23 ∧ t.tm_yday ≤ 365 ∧ t.tm_wday ≤ 6

instance (t : Tm) : Decidable t.Valid := by
  unfold Tm.Valid; infer_instance

/- JJY time-code bit functions, from src/ersatz-jjy.c lines 88-351. -/

def jjy_b01 (t : Tm) : Bool := decide (40 ≤ t.tm_min)

def jjy_b02 (t : Tm) : Bool := decide (20 ≤ t.tm_min % 40)

def jjy_b03 (t : Tm) : Bool := decide (10 ≤ t.tm_min % 20)

def jjy_b05 (t : Tm) : Bool := decide (8 ≤ t.tm_min % 10)

def jjy_b06 (t : Tm) : Bool := decide (4 ≤ t.tm_min % 10 % 8)

def jjy_b07 (t : Tm) : Bool := decide (2 ≤ t.tm_min % 10 % 4)

def jjy_b08 (t : Tm) : Bool := decide (0 < t.tm_min % 2)

def jjy_b12 (t : Tm) : Bool := decide (20 ≤ t.tm_hour)

def jjy_b13 (t : Tm) : Bool := decide (10 ≤ t.tm_hour % 20)

def jjy_b15 (t : Tm) : Bool := decide (8 ≤ t.tm_hour % 10)

def jjy_b16 (t : Tm) : Bool := decide (4 ≤ t.tm_hour % 10 % 8)

def jjy_b17 (t : Tm) : Bool := decide (2 ≤ t.tm_hour % 10 % 4)

def jjy_b18 (t : Tm) : Bool := decide (0 < t.tm_hour % 2)

def jjy_b22 (t : Tm) : Bool := decide (200 ≤ t.tm_yday + 1)

def jjy_b23 (t : Tm) : Bool := decide (100 ≤ (t.tm_yday + 1) % 200)

def jjy_b25 (t : Tm) : Bool := decide (80 ≤ (t.tm_yday + 1) % 100)

def jjy_b26 (t : Tm) : Bool := decide (40 ≤ (t.tm_yday + 1) % 100 % 80)

def jjy_b27 (t : Tm) : Bool := decide (20 ≤ (t.tm_yday + 1) % 100 % 40)

def jjy_b28 (t : Tm) : Bool := decide (10 ≤ (t.tm_yday + 1) % 20)

def jjy_b30 (t : Tm) : Bool := decide (8 ≤ (t.tm_yday + 1) % 10)

def jjy_b31 (t : Tm) : Bool := decide (4 ≤ (t.tm_yday + 1) % 10 % 8)

def jjy_b32 (t : Tm) : Bool := decide (2 ≤ (t.tm_yday + 1) % 10 % 4)

def jjy_b33 (t : Tm) : Bool := decide (0 < (t.tm_yday + 1) % 2)

/-- Even parity over time-code bits 12-18 (bit 14 is constant 0). -/
def jjy_b36 (t : Tm) : Bool :=
  (((((false != jjy_b12 t) != jjy_b13 t) != jjy_b15 t) != jjy_b16 t) != jjy_b17 t)
    != jjy_b18 t

/-- Even parity over time-code bits 1-8 (bit 4 is constant 0). -/
def jjy_b37 (t : Tm) : Bool :=
  ((((((false != jjy_b01 t) != jjy_b02 t) != jjy_b03 t) != jjy_b05 t) != jjy_b06 t)
    != jjy_b07 t) != jjy_b08 t

def jjy_b41 (t : Tm) : Bool := decide (80 ≤ t.tm_year % 100)

def jjy_b42 (t : Tm) : Bool := decide (40 ≤ t.tm_year % 100 % 80)

def jjy_b43 (t : Tm) : Bool := decide (20 ≤ t.tm_year % 100 % 40)

def jjy_b44 (t : Tm) : Bool := decide (10 ≤ t.tm_year % 20)

def jjy_b45 (t : Tm) : Bool := decide (8 ≤ t.tm_year % 10)

def jjy_b46 (t : Tm) : Bool := decide (4 ≤ t.tm_year % 10 % 8)

def jjy_b47 (t : Tm) : Bool := decide (2 ≤ t.tm_year % 10 % 4)

def jjy_b48 (t : Tm) : Bool := decide (0 < t.tm_year % 2)

def jjy_b50 (t : Tm) : Bool := decide (4 ≤ t.tm_wday)

def jjy_b51 (t : Tm) : Bool := decide (2 ≤ t.tm_wday % 4)

def jjy_b52 (t : Tm) : Bool := decide (0 < t.tm_wday % 2)

def jjy_b53 (_ : Tm) : Bool := false

def jjy_b54 (_ : Tm) : Bool := false

/- WWVB AM time-code bit functions, from src/ersatz-wwvb.c lines 86-326.
In the source each takes a `time_t` and decomposes it with `gmtime`;
here they take the broken-down UTC time directly. -/

def wwvb_b01 (t : Tm) : Bool := decide (40 ≤ t.tm_min)

def wwvb_b02 (t : Tm) : Bool := decide (20 ≤ t.tm_min % 40)

def wwvb_b03 (t : Tm) : Bool := decide (10 ≤ t.tm_min % 20)

def wwvb_b05 (t : Tm) : Bool := decide (8 ≤ t.tm_min % 10)

def wwvb_b06 (t : Tm) : Bool := decide (4 ≤ t.tm_min % 10 % 8)

def wwvb_b07 (t : Tm) : Bool := decide (2 ≤ t.tm_min % 10 % 4)

def wwvb_b08 (t : Tm) : Bool := decide (0 < t.tm_min % 2)

def wwvb_b12 (t : Tm) : Bool := decide (20 ≤ t.tm_hour)

def wwvb_b13 (t : Tm) : Bool := decide (10 ≤ t.tm_hour % 20)

def wwvb_b15 (t : Tm) : Bool := decide (8 ≤ t.tm_hour % 10)

def wwvb_b16 (t : Tm) : Bool := decide (4 ≤ t.tm_hour % 10 % 8)

def wwvb_b17 (t : Tm) : Bool := decide (2 ≤ t.tm_hour % 10 % 4)

def wwvb_b18 (t : Tm) : Bool := decide (0 < t.tm_hour % 2)

def wwvb_b22 (t : Tm) : Bool := decide (200 ≤ t.tm_yday + 1)

def wwvb_b23 (t : Tm) : Bool := decide (100 ≤ (t.tm_yday + 1) % 200)

def wwvb_b25 (t : Tm) : Bool := decide (80 ≤ (t.tm_yday + 1) % 100)

def wwvb_b26 (t : Tm) : Bool := decide (40 ≤ (t.tm_yday + 1) % 100 % 80)

def wwvb_b27 (t : Tm) : Bool := decide (20 ≤ (t.tm_yday + 1) % 100 % 40)

def wwvb_b28 (t : Tm) : Bool := decide (10 ≤ (t.tm_yday + 1) % 20)

def wwvb_b30 (t : Tm) : Bool := decide (8 ≤ (t.tm_yday + 1) % 10)

def wwvb_b31 (t : Tm) : Bool := decide (4 ≤ (t.tm_yday + 1) % 10 % 8)

def wwvb_b32 (t : Tm) : Bool := decide (2 ≤ (t.tm_yday + 1) % 10 % 4)

def wwvb_b33 (t : Tm) : Bool := decide (0 < (t.tm_yday + 1) % 2)

def wwvb_b36 (_ : Tm) : Bool := true

def wwvb_b37 (_ : Tm) : Bool := false

def wwvb_b38 (_ : Tm) : Bool := true

def wwvb_b40 (_ : Tm) : Bool := false

def wwvb_b41 (_ : Tm) : Bool := false

def wwvb_b42 (_ : Tm) : Bool := false

def wwvb_b43 (_ : Tm) : Bool := false

def wwvb_b45 (t : Tm) : Bool := decide (80 ≤ t.tm_year % 100)

def wwvb_b46 (t : Tm) : Bool := decide (40 ≤ t.tm_year % 100 % 80)

def wwvb_b47 (t : Tm) : Bool := decide (20 ≤ t.tm_year % 100 % 40)

def wwvb_b48 (t : Tm) : Bool := decide (10 ≤ t.tm_year % 20)

def wwvb_b50 (t : Tm) : Bool := decide (8 ≤ t.tm_year % 10)

def wwvb_b51 (t : Tm) : Bool := decide (4 ≤ t.tm_year % 10 % 8)

def wwvb_b52 (t : Tm) : Bool := decide (2 ≤ t.tm_year % 10 % 4)

def wwvb_b53 (t : Tm) : Bool := decide (0 < t.tm_year % 2)

def wwvb_b55 (t : Tm) : Bool :=
  decide ((t.tm_year + 1900) % 4 = 0 ∧
    (((t.tm_year + 1900) % 100 = 0) ↔ ((t.tm_year + 1900) % 400 = 0)))

def wwvb_b56 (_ : Tm) : Bool := false

/- Second classifiers: amplitude-shift lengths per second, from
src/ersatz-jjy.c lines 34-36 and 353-470 and src/ersatz-wwvb.c lines
36-38 and 657-776. -/

def SAMPLE_RATE : Nat := 48000

def JJY_B0_HIGH_SAMPLES : Nat := SAMPLE_RATE * 4 / 5

def JJY_B1_HIGH_SAMPLES : Nat := SAMPLE_RATE / 2

def JJY_M_HIGH_SAMPLES : Nat := SAMPLE_RATE / 5

def WWVB_B0_LOW_SAMPLES : Nat := SAMPLE_RATE / 5

def WWVB_B1_LOW_SAMPLES : Nat := SAMPLE_RATE / 2

def WWVB_M_LOW_SAMPLES : Nat := SAMPLE_RATE * 4 / 5

/-- Number of high (full-amplitude) samples at the start of the JJY
second `t.tm_sec`; the `switch` of `sec_high_samples` with the
function-pointer table inlined per variable second. -/
def sec_high_samples (t : Tm) : Nat :=
  if t.tm_sec = 0 ∨ t.tm_sec = 9 ∨ t.tm_sec = 19 ∨ t.tm_sec = 29 ∨ t.tm_sec = 39 ∨ t.tm_sec = 49 ∨ t.tm_sec = 59 ∨ t.tm_sec = 60 then
    JJY_M_HIGH_SAMPLES
  else if t.tm_sec = 4 ∨ t.tm_sec = 10 ∨ t.tm_sec = 11 ∨ t.tm_sec = 14 ∨ t.tm_sec = 20 ∨ t.tm_sec = 21 ∨ t.tm_sec = 24 ∨ t.tm_sec = 34 ∨ t.tm_sec = 35 ∨ t.tm_sec = 38 ∨ t.tm_sec = 40 ∨ t.tm_sec = 55 ∨ t.tm_sec = 56 ∨ t.tm_sec = 57 ∨ t.tm_sec = 58 then
    JJY_B0_HIGH_SAMPLES
  else if t.tm_sec = 1 then
    if jjy_b01 t then JJY_B1_HIGH_SAMPLES else JJY_B0_HIGH_SAMPLES
  else if t.tm_sec = 2 then
    if jjy_b02 t then JJY_B1_HIGH_SAMPLES else JJY_B0_HIGH_SAMPLES
  else if t.tm_sec = 3 then
    if jjy_b03 t then JJY_B1_HIGH_SAMPLES else JJY_B0_HIGH_SAMPLES
  else if t.tm_sec = 5 then
    if jjy_b05 t then JJY_B1_HIGH_SAMPLES else JJY_B0_HIGH_SAMPLES
  else if t.tm_sec = 6 then
    if jjy_b06 t then JJY_B1_HIGH_SAMPLES else JJY_B0_HIGH_SAMPLES
  else if t.tm_sec = 7 then
    if jjy_b07 t then JJY_B1_HIGH_SAMPLES else JJY_B0_HIGH_SAMPLES
  else if t.tm_sec = 8 then
    if jjy_b08 t then JJY_B1_HIGH_SAMPLES else JJY_B0_HIGH_SAMPLES
  else if t.tm_sec = 12 then
    if jjy_b12 t then JJY_B1_HIGH_SAMPLES else JJY_B0_HIGH_SAMPLES
  else if t.tm_sec = 13 then
    if jjy_b13 t then JJY_B1_HIGH_SAMPLES else JJY_B0_HIGH_SAMPLES
  else if t.tm_sec = 15 then
    if jjy_b15 t then JJY_B1_HIGH_SAMPLES else JJY_B0_HIGH_SAMPLES
  else if t.tm_sec = 16 then
    if jjy_b16 t then JJY_B1_HIGH_SAMPLES else JJY_B0_HIGH_SAMPLES
  else if t.tm_sec = 17 then
    if jjy_b17 t then JJY_B1_HIGH_SAMPLES else JJY_B0_HIGH_SAMPLES
  else if t.tm_sec = 18 then
    if jjy_b18 t then JJY_B1_HIGH_SAMPLES else JJY_B0_HIGH_SAMPLES
  else if t.tm_sec = 22 then
    if jjy_b22 t then JJY_B1_HIGH_SAMPLES else JJY_B0_HIGH_SAMPLES
  else if t.tm_sec = 23 then
    if jjy_b23 t then JJY_B1_HIGH_SAMPLES else JJY_B0_HIGH_SAMPLES
  else if t.tm_sec = 25 then
    if jjy_b25 t then JJY_B1_HIGH_SAMPLES else JJY_B0_HIGH_SAMPLES
  else if t.tm_sec = 26 then
    if jjy_b26 t then JJY_B1_HIGH_SAMPLES else JJY_B0_HIGH_SAMPLES
  else if t.tm_sec = 27 then
    if jjy_b27 t then JJY_B1_HIGH_SAMPLES else JJY_B0_HIGH_SAMPLES
  else if t.tm_sec = 28 then
    if jjy_b28 t then JJY_B1_HIGH_SAMPLES else JJY_B0_HIGH_SAMPLES
  else if t.tm_sec = 30 then
    if jjy_b30 t then JJY_B1_HIGH_SAMPLES else JJY_B0_HIGH_SAMPLES
  else if t.tm_sec = 31 then
    if jjy_b31 t then JJY_B1_HIGH_SAMPLES else JJY_B0_HIGH_SAMPLES
  else if t.tm_sec = 32 then
    if jjy_b32 t then JJY_B1_HIGH_SAMPLES else JJY_B0_HIGH_SAMPLES
  else if t.tm_sec = 33 then
    if jjy_b33 t then JJY_B1_HIGH_SAMPLES else JJY_B0_HIGH_SAMPLES
  else if t.tm_sec = 36 then
    if jjy_b36 t then JJY_B1_HIGH_SAMPLES else JJY_B0_HIGH_SAMPLES
  else if t.tm_sec = 37 then
    if jjy_b37 t then JJY_B1_HIGH_SAMPLES else JJY_B0_HIGH_SAMPLES
  else if t.tm_sec = 41 then
    if jjy_b41 t then JJY_B1_HIGH_SAMPLES else JJY_B0_HIGH_SAMPLES
  else if t.tm_sec = 42 then
    if jjy_b42 t then JJY_B1_HIGH_SAMPLES else JJY_B0_HIGH_SAMPLES
  else if t.tm_sec = 43 then
    if jjy_b43 t then JJY_B1_HIGH_SAMPLES else JJY_B0_HIGH_SAMPLES
  else if t.tm_sec = 44 then
    if jjy_b44 t then JJY_B1_HIGH_SAMPLES else JJY_B0_HIGH_SAMPLES
  else if t.tm_sec = 45 then
    if jjy_b45 t then JJY_B1_HIGH_SAMPLES else JJY_B0_HIGH_SAMPLES
  else if t.tm_sec = 46 then
    if jjy_b46 t then JJY_B1_HIGH_SAMPLES else JJY_B0_HIGH_SAMPLES
  else if t.tm_sec = 47 then
    if jjy_b47 t then JJY_B1_HIGH_SAMPLES else JJY_B0_HIGH_SAMPLES
  else if t.tm_sec = 48 then
    if jjy_b48 t then JJY_B1_HIGH_SAMPLES else JJY_B0_HIGH_SAMPLES
  else if t.tm_sec = 50 then
    if jjy_b50 t then JJY_B1_HIGH_SAMPLES else JJY_B0_HIGH_SAMPLES
  else if t.tm_sec = 51 then
    if jjy_b51 t then JJY_B1_HIGH_SAMPLES else JJY_B0_HIGH_SAMPLES
  else if t.tm_sec = 52 then
    if jjy_b52 t then JJY_B1_HIGH_SAMPLES else JJY_B0_HIGH_SAMPLES
  else if t.tm_sec = 53 then
    if jjy_b53 t then JJY_B1_HIGH_SAMPLES else JJY_B0_HIGH_SAMPLES
  else if t.tm_sec = 54 then
    if jjy_b54 t then JJY_B1_HIGH_SAMPLES else JJY_B0_HIGH_SAMPLES
  else JJY_B0_HIGH_SAMPLES

def sec_low_samples (dst_eod dst_bod : Bool) (t : Tm) : Nat :=
  if t.tm_sec = 0 ∨ t.tm_sec = 9 ∨ t.tm_sec = 19 ∨ t.tm_sec = 29 ∨ t.tm_sec = 39 ∨ t.tm_sec = 49 ∨ t.tm_sec = 59 ∨ t.tm_sec = 60 then
    WWVB_M_LOW_SAMPLES
  else if t.tm_sec = 4 ∨ t.tm_sec = 10 ∨ t.tm_sec = 11 ∨ t.tm_sec = 14 ∨ t.tm_sec = 20 ∨ t.tm_sec = 21 ∨ t.tm_sec = 24 ∨ t.tm_sec = 34 ∨ t.tm_sec = 35 ∨ t.tm_sec = 44 ∨ t.tm_sec = 54 then
    WWVB_B0_LOW_SAMPLES
  else if t.tm_sec = 1 then
    if wwvb_b01 t then WWVB_B1_LOW_SAMPLES else WWVB_B0_LOW_SAMPLES
  else if t.tm_sec = 2 then
    if wwvb_b02 t then WWVB_B1_LOW_SAMPLES else WWVB_B0_LOW_SAMPLES
  else if t.tm_sec = 3 then
    if wwvb_b03 t then WWVB_B1_LOW_SAMPLES else WWVB_B0_LOW_SAMPLES
  else if t.tm_sec = 5 then
    if wwvb_b05 t then WWVB_B1_LOW_SAMPLES else WWVB_B0_LOW_SAMPLES
  else if t.tm_sec = 6 then
    if wwvb_b06 t then WWVB_B1_LOW_SAMPLES else WWVB_B0_LOW_SAMPLES
  else if t.tm_sec = 7 then
    if wwvb_b07 t then WWVB_B1_LOW_SAMPLES else WWVB_B0_LOW_SAMPLES
  else if t.tm_sec = 8 then
    if wwvb_b08 t then WWVB_B1_LOW_SAMPLES else WWVB_B0_LOW_SAMPLES
  else if t.tm_sec = 12 then
    if wwvb_b12 t then WWVB_B1_LOW_SAMPLES else WWVB_B0_LOW_SAMPLES
  else if t.tm_sec = 13 then
    if wwvb_b13 t then WWVB_B1_LOW_SAMPLES else WWVB_B0_LOW_SAMPLES
  else if t.tm_sec = 15 then
    if wwvb_b15 t then WWVB_B1_LOW_SAMPLES else WWVB_B0_LOW_SAMPLES
  else if t.tm_sec = 16 then
    if wwvb_b16 t then WWVB_B1_LOW_SAMPLES else WWVB_B0_LOW_SAMPLES
  else if t.tm_sec = 17 then
    if wwvb_b17 t then WWVB_B1_LOW_SAMPLES else WWVB_B0_LOW_SAMPLES
  else if t.tm_sec = 18 then
    if wwvb_b18 t then WWVB_B1_LOW_SAMPLES else WWVB_B0_LOW_SAMPLES
  else if t.tm_sec = 22 then
    if wwvb_b22 t then WWVB_B1_LOW_SAMPLES else WWVB_B0_LOW_SAMPLES
  else if t.tm_sec = 23 then
    if wwvb_b23 t then WWVB_B1_LOW_SAMPLES else WWVB_B0_LOW_SAMPLES
  else if t.tm_sec = 25 then
    if wwvb_b25 t then WWVB_B1_LOW_SAMPLES else WWVB_B0_LOW_SAMPLES
  else if t.tm_sec = 26 then
    if wwvb_b26 t then WWVB_B1_LOW_SAMPLES else WWVB_B0_LOW_SAMPLES
  else if t.tm_sec = 27 then
    if wwvb_b27 t then WWVB_B1_LOW_SAMPLES else WWVB_B0_LOW_SAMPLES
  else if t.tm_sec = 28 then
    if wwvb_b28 t then WWVB_B1_LOW_SAMPLES else WWVB_B0_LOW_SAMPLES
  else if t.tm_sec = 30 then
    if wwvb_b30 t then WWVB_B1_LOW_SAMPLES else WWVB_B0_LOW_SAMPLES
  else if t.tm_sec = 31 then
    if wwvb_b31 t then WWVB_B1_LOW_SAMPLES else WWVB_B0_LOW_SAMPLES
  else if t.tm_sec = 32 then
    if wwvb_b32 t then WWVB_B1_LOW_SAMPLES else WWVB_B0_LOW_SAMPLES
  else if t.tm_sec = 33 then
    if wwvb_b33 t then WWVB_B1_LOW_SAMPLES else WWVB_B0_LOW_SAMPLES
  else if t.tm_sec = 36 then
    if wwvb_b36 t then WWVB_B1_LOW_SAMPLES else WWVB_B0_LOW_SAMPLES
  else if t.tm_sec = 37 then
    if wwvb_b37 t then WWVB_B1_LOW_SAMPLES else WWVB_B0_LOW_SAMPLES
  else if t.tm_sec = 38 then
    if wwvb_b38 t then WWVB_B1_LOW_SAMPLES else WWVB_B0_LOW_SAMPLES
  else if t.tm_sec = 40 then
    if wwvb_b40 t then WWVB_B1_LOW_SAMPLES else WWVB_B0_LOW_SAMPLES
  else if t.tm_sec = 41 then
    if wwvb_b41 t then WWVB_B1_LOW_SAMPLES else WWVB_B0_LOW_SAMPLES
  else if t.tm_sec = 42 then
    if wwvb_b42 t then WWVB_B1_LOW_SAMPLES else WWVB_B0_LOW_SAMPLES
  else if t.tm_sec = 43 then
    if wwvb_b43 t then WWVB_B1_LOW_SAMPLES else WWVB_B0_LOW_SAMPLES
  else if t.tm_sec = 45 then
    if wwvb_b45 t then WWVB_B1_LOW_SAMPLES else WWVB_B0_LOW_SAMPLES
  else if t.tm_sec = 46 then
    if wwvb_b46 t then WWVB_B1_LOW_SAMPLES else WWVB_B0_LOW_SAMPLES
  else if t.tm_sec = 47 then
    if wwvb_b47 t then WWVB_B1_LOW_SAMPLES else WWVB_B0_LOW_SAMPLES
  else if t.tm_sec = 48 then
    if wwvb_b48 t then WWVB_B1_LOW_SAMPLES else WWVB_B0_LOW_SAMPLES
  else if t.tm_sec = 50 then
    if wwvb_b50 t then WWVB_B1_LOW_SAMPLES else WWVB_B0_LOW_SAMPLES
  else if t.tm_sec = 51 then
    if wwvb_b51 t then WWVB_B1_LOW_SAMPLES else WWVB_B0_LOW_SAMPLES
  else if t.tm_sec = 52 then
    if wwvb_b52 t then WWVB_B1_LOW_SAMPLES else WWVB_B0_LOW_SAMPLES
  else if t.tm_sec = 53 then
    if wwvb_b53 t then WWVB_B1_LOW_SAMPLES else WWVB_B0_LOW_SAMPLES
  else if t.tm_sec = 55 then
    if wwvb_b55 t then WWVB_B1_LOW_SAMPLES else WWVB_B0_LOW_SAMPLES
  else if t.tm_sec = 56 then
    if wwvb_b56 t then WWVB_B1_LOW_SAMPLES else WWVB_B0_LOW_SAMPLES
  else if t.tm_sec = 57 then
    if dst_eod then WWVB_B1_LOW_SAMPLES else WWVB_B0_LOW_SAMPLES
  else if t.tm_sec = 58 then
    if dst_bod then WWVB_B1_LOW_SAMPLES else WWVB_B0_LOW_SAMPLES
  else WWVB_B0_LOW_SAMPLES

/- Decoding the BCD fields: the weighted sum of the set bits. -/

/-- Numeric value of a bit. -/
def b2n (b : Bool) : Nat := cond b 1 0

def jjy_minute_decode (t : Tm) : Nat :=
  40 * b2n (jjy_b01 t) + 20 * b2n (jjy_b02 t) + 10 * b2n (jjy_b03 t)
    + 8 * b2n (jjy_b05 t) + 4 * b2n (jjy_b06 t) + 2 * b2n (jjy_b07 t)
    + b2n (jjy_b08 t)

def jjy_hour_decode (t : Tm) : Nat :=
  20 * b2n (jjy_b12 t) + 10 * b2n (jjy_b13 t) + 8 * b2n (jjy_b15 t)
    + 4 * b2n (jjy_b16 t) + 2 * b2n (jjy_b17 t) + b2n (jjy_b18 t)

def jjy_yday_decode (t : Tm) : Nat :=
  200 * b2n (jjy_b22 t) + 100 * b2n (jjy_b23 t) + 80 * b2n (jjy_b25 t)
    + 40 * b2n (jjy_b26 t) + 20 * b2n (jjy_b27 t) + 10 * b2n (jjy_b28 t)
    + 8 * b2n (jjy_b30 t) + 4 * b2n (jjy_b31 t) + 2 * b2n (jjy_b32 t)
    + b2n (jjy_b33 t)

def jjy_year_decode (t : Tm) : Nat :=
  80 * b2n (jjy_b41 t) + 40 * b2n (jjy_b42 t) + 20 * b2n (jjy_b43 t)
    + 10 * b2n (jjy_b44 t) + 8 * b2n (jjy_b45 t) + 4 * b2n (jjy_b46 t)
    + 2 * b2n (jjy_b47 t) + b2n (jjy_b48 t)

def jjy_wday_decode (t : Tm) : Nat :=
  4 * b2n (jjy_b50 t) + 2 * b2n (jjy_b51 t) + b2n (jjy_b52 t)

def wwvb_minute_decode (t : Tm) : Nat :=
  40 * b2n (wwvb_b01 t) + 20 * b2n (wwvb_b02 t) + 10 * b2n (wwvb_b03 t)
    + 8 * b2n (wwvb_b05 t) + 4 * b2n (wwvb_b06 t) + 2 * b2n (wwvb_b07 t)
    + b2n (wwvb_b08 t)

def wwvb_hour_decode (t : Tm) : Nat :=
  20 * b2n (wwvb_b12 t) + 10 * b2n (wwvb_b13 t) + 8 * b2n (wwvb_b15 t)
    + 4 * b2n (wwvb_b16 t) + 2 * b2n (wwvb_b17 t) + b2n (wwvb_b18 t)

def wwvb_yday_decode (t : Tm) : Nat :=
  200 * b2n (wwvb_b22 t) + 100 * b2n (wwvb_b23 t) + 80 * b2n (wwvb_b25 t)
    + 40 * b2n (wwvb_b26 t) + 20 * b2n (wwvb_b27 t) + 10 * b2n (wwvb_b28 t)
    + 8 * b2n (wwvb_b30 t) + 4 * b2n (wwvb_b31 t) + 2 * b2n (wwvb_b32 t)
    + b2n (wwvb_b33 t)

def wwvb_year_decode (t : Tm) : Nat :=
  80 * b2n (wwvb_b45 t) + 40 * b2n (wwvb_b46 t) + 20 * b2n (wwvb_b47 t)
    + 10 * b2n (wwvb_b48 t) + 8 * b2n (wwvb_b50 t) + 4 * b2n (wwvb_b51 t)
    + 2 * b2n (wwvb_b52 t) + b2n (wwvb_b53 t)

/- CLI argument parsing, from src/ersatz-jjy.c lines 552-645 and
src/ersatz-wwvb.c lines 847-924.  An argument is a list of characters
(the argument vector excludes the program name, matching the loop from
index 1); `none` models the parse-failure paths that print to stderr
and make `main` return 1. -/

structure JjyArgs where
  fukushima : Bool
  help : Bool
  jst : Bool
  version : Bool
deriving DecidableEq

structure WwvbArgs where
  help : Bool
  version : Bool
deriving DecidableEq

def fukushima_flag_setter (a : JjyArgs) : JjyArgs := { a with fukushima := true }

def help_flag_setter (a : JjyArgs) : JjyArgs := { a with help := true }

def jst_flag_setter (a : JjyArgs) : JjyArgs := { a with jst := true }

def version_flag_setter (a : JjyArgs) : JjyArgs := { a with version := true }

def wwvb_help_flag_setter (a : WwvbArgs) : WwvbArgs := { a with help := true }

def wwvb_version_flag_setter (a : WwvbArgs) : WwvbArgs := { a with version := true }

/-- First matching entry of the JJY `cli_flags` table for a short flag
character, if any. -/
def jjy_apply_short (c : Char) : Option (JjyArgs → JjyArgs) :=
  if c = 'f' then some fukushima_flag_setter
  else if c = 'h' then some help_flag_setter
  else if c = 'j' then some jst_flag_setter
  else if c = 'v' then some version_flag_setter
  else none

/-- First matching entry of the JJY `cli_flags` table for a long flag
name (the argument with its leading `--` removed), if any. -/
def jjy_apply_long (s : List Char) : Option (JjyArgs → JjyArgs) :=
  if s = "fukushima".toList then some fukushima_flag_setter
  else if s = "help".toList then some help_flag_setter
  else if s = "jst".toList then some jst_flag_setter
  else if s = "version".toList then some version_flag_setter
  else none

def wwvb_apply_short (c : Char) : Option (WwvbArgs → WwvbArgs) :=
  if c = 'h' then some wwvb_help_flag_setter
  else if c = 'v' then some wwvb_version_flag_setter
  else none

def wwvb_apply_long (s : List Char) : Option (WwvbArgs → WwvbArgs) :=
  if s = "help".toList then some wwvb_help_flag_setter
  else if s = "version".toList then some wwvb_version_flag_setter
  else none

/-- The inner loop over the characters of a grouped short-flag argument
(after the leading `-`): each character must match a table entry, whose
setter is applied; an unrecognized character aborts parsing. -/
def parse_short_chars {A : Type} (app : Char → Option (A → A)) :
    A → List Char → Option A
  | a, [] => some a
  | a, c :: cs =>
    match app c with
    | some f => parse_short_chars app (f a) cs
    | none => none

/-- Handling of one argument: a `--`-prefixed argument is compared
against the long forms, an argument starting with `-` is parsed as
grouped short flags, anything else is an unrecognized argument. -/
def parse_one_arg {A : Type} (app : Char → Option (A → A))
    (appLong : List Char → Option (A → A)) (a : A) (arg : List Char) : Option A :=
  if arg.take 2 = ['-', '-'] then
    match appLong (arg.drop 2) with
    | some f => some (f a)
    | none => none
  else if arg.head? = some '-' then
    parse_short_chars app a arg.tail
  else none

/-- The loop over `argv[1..]`. -/
def parse_args {A : Type} (app : Char → Option (A → A))
    (appLong : List Char → Option (A → A)) : A → List (List Char) → Option A
  | a, [] => some a
  | a, arg :: rest =>
    match parse_one_arg app appLong a arg with
    | some a2 => parse_args app appLong a2 rest
    | none => none

/-- `parse_jjy_args` on the arguments after the program name; all flags
start cleared. -/
def parse_jjy_args (argv : List (List Char)) : Option JjyArgs :=
  parse_args jjy_apply_short jjy_apply_long ⟨false, false, false, false⟩ argv

def parse_wwvb_args (argv : List (List Char)) : Option WwvbArgs :=
  parse_args wwvb_apply_short wwvb_apply_long ⟨false, false⟩ argv

/-- Exit code of the JJY `main` as far as it is decided by argument
handling: 1 on parse failure, 0 after help or version output, `none`
when execution continues into audio setup. -/
def jjy_main_exit (argv : List (List Char)) : Option Nat :=
  match parse_jjy_args argv with
  | none => some 1
  | some args => if args.help then some 0 else if args.version then some 0 else none

def wwvb_main_exit (argv : List (List Char)) : Option Nat :=
  match parse_wwvb_args argv with
  | none => some 1
  | some args => if args.help then some 0 else if args.version then some 0 else none

/-- An argument that begins with a single `-` (not `--`) and contains a
character that is not a recognized short flag of the table `shorts`. -/
def BadShortArg (shorts : List Char) (arg : List Char) : Prop :=
  arg.take 2 ≠ ['-', '-'] ∧ ∃ cs, arg = '-' :: cs ∧ ∃ c ∈ cs, c ∉ shorts

/-- The argument vector requests help or version: it contains `--help`
or `--version`, or a grouped short-flag argument containing `h` or `v`. -/
def RequestsHelpOrVersion (argv : List (List Char)) : Prop :=
  ∃ arg ∈ argv, arg = "--help".toList ∨ arg = "--version".toList ∨
    (arg.take 2 ≠ ['-', '-'] ∧ ∃ cs, arg = '-' :: cs ∧ ('h' ∈ cs ∨ 'v' ∈ cs))

/- WWVB phase-modulation engine, from src/ersatz-wwvb.c lines 39-42 and
380-655. -/

def HALF_HOUR_SEQ_BITS : List Nat := [0x34bd771e648ab67f, 0xb5037c1610e8c4e5]

def FIXED_TIMING_WORD : List Nat := [0x42a5cb431d9a6b8b, 0x0000009207fb6b47]

/-- `access_bit` from the source:
`((1 << (index % 64)) & a[index / 64]) != 0`.  The shifted `1` is a
32-bit signed `int`, so the shift is defined only for shift amounts up
to 30 (C11 6.5.7p4: the shift amount must be less than the width and
the result must be representable); the undefined cases are modelled by
`none`. -/
def access_bit (a : List Nat) (index : Nat) : Option Bool :=
  if index % 64 < 31 then
    some (decide ((1 <<< (index % 64)) &&& a.getD (index / 64) 0 ≠ 0))
  else none

/-- Modelled from the spec: `access(a, i) = (a[i/64] >> (i mod 64)) & 1`,
the intended access to bit `i` of the packed 64-bit words, with bit 0
the least-significant bit of word 0. -/
def access_bit_spec (a : List Nat) (index : Nat) : Bool :=
  decide ((a.getD (index / 64) 0 >>> (index % 64)) &&& 1 = 1)

/-- `minute_of_century` from the source: full minutes since the most
recent year that is a multiple of 100. -/
def minute_of_century (t : Tm) : Nat :=
  let year := t.tm_year + 1900
  let first_year := year - year % 100
  (List.range (year - first_year)).foldl
    (fun total i =>
      if (first_year + i) % 4 = 0 ∧
          (((first_year + i) % 100 = 0) ↔ ((first_year + i) % 400 = 0)) then
        total + 366 * 1440
      else
        total + 365 * 1440)
    0
  + t.tm_yday * 1440 + t.tm_hour * 60 + t.tm_min

/-- Modelled from the spec: `minute_of_century` counts full UTC minutes
from the most recent year that is a multiple of 100 up to `tm`, summing
`1440 · (366 if leap else 365)` for each intervening year (Gregorian
leap rule) and then adding `tm_yday · 1440 + tm_hour · 60 + tm_min`. -/
def minute_of_century_spec (t : Tm) : Nat :=
  let year := t.tm_year + 1900
  let first_year := year - year % 100
  (∑ y in Finset.Ico first_year year,
    1440 * (if (y % 4 = 0 ∧ y % 100 ≠ 0) ∨ y % 400 = 0 then 366 else 365))
  + t.tm_yday * 1440 + t.tm_hour * 60 + t.tm_min

/-- `wwvb_pm_time`: the time-data bit broadcast at second `t.tm_sec`, a
bit of `mins = minute_of_century`.  In the source the position `i` is a
C `int`; its computation is meaningful for `tm_sec ≤ 46`, and all calls
(from `wwvb_pm` and `wwvb_pm_ecc`) have `tm_sec` in `[18, 46]`. -/
def wwvb_pm_time (t : Tm) (mins : Nat) : Bool :=
  let i : Nat :=
    if 40 ≤ t.tm_sec then 46 - t.tm_sec
    else if 30 ≤ t.tm_sec then 45 - t.tm_sec
    else if 20 ≤ t.tm_sec then 44 - t.tm_sec
    else if t.tm_sec = 19 then 0
    else 25
  decide (mins &&& (1 <<< i) ≠ 0)

/-- `wwvb_pm_ecc`: odd-parity Hamming code over the 26 time-code bits
except bit 0, evaluated at Hamming position `17 - tm_sec`. -/
def wwvb_pm_ecc (t : Tm) (mins : Nat) : Bool :=
  let p : Nat := 17 - t.tm_sec
  (List.range 25).foldl
    (fun b j =>
      let i := j + 1
      if (1 <<< p) &&& i = 0 then b
      else
        b != wwvb_pm_time
          { t with tm_sec :=
              if i ≤ 6 then 46 - i
              else if i ≤ 15 then 45 - i
              else if i ≤ 24 then 44 - i
              else 18 } mins)
    true

/-- `half_hour_seq` from the source.  `dst_eod` and `dst_bod` are the
values of `wwvb_b57` and `wwvb_b58` (end-of-day and begin-of-day DST
flags, environment-dependent in the source). -/
def half_hour_seq (t : Tm) (dst_eod dst_bod : Bool) : Nat :=
  if !(dst_eod || dst_bod) then
    t.tm_hour * 4 + t.tm_min / 17 + 1
  else if dst_eod && dst_bod then
    t.tm_hour * 4 + t.tm_min / 17 + 2
  else if dst_eod && !dst_bod then
    if t.tm_hour ≤ 3 then t.tm_hour * 4 + t.tm_min / 17 + 1
    else if t.tm_hour ≤ 10 then t.tm_hour * 4 + t.tm_min / 17 + 81
    else t.tm_hour * 4 + t.tm_min / 17 + 2
  else
    if t.tm_hour ≤ 3 then t.tm_hour * 4 + t.tm_min / 17 + 2
    else if t.tm_hour ≤ 10 then t.tm_hour * 4 + t.tm_min / 17 + 82
    else t.tm_hour * 4 + t.tm_min / 17 + 1

/-- `wwvb_pm_six_min`: the PM bit inside a six-minute synchronization
window.  In the third branch the source computes
`(seq + 358 - frame_sec) % 127` on C `int`s, which can be negative; a
negative remainder feeds a negative shift amount into `access_bit`,
which is undefined, so that case is modelled by `none`. -/
def wwvb_pm_six_min (dst_eod dst_bod : Bool) (t : Tm) : Option Bool :=
  let frame_sec := (t.tm_min % 10) * 60 + t.tm_sec
  if frame_sec < 127 then
    access_bit HALF_HOUR_SEQ_BITS
      ((half_hour_seq t dst_eod dst_bod - 1 + frame_sec) % 127)
  else if frame_sec < 233 then
    access_bit FIXED_TIMING_WORD (frame_sec - 127)
  else
    let r : Int :=
      Int.tmod ((half_hour_seq t dst_eod dst_bod : Int) + 358 - (frame_sec : Int)) 127
    if 0 ≤ r then access_bit HALF_HOUR_SEQ_BITS r.toNat else none

/-- `wwvb_pm`: the phase-modulation bit for the second `t.tm_sec` of the
UTC time `t`; the `switch` rendered as an equality chain. -/
def wwvb_pm (dst_eod dst_bod : Bool) (t : Tm) : Option Bool :=
  if 10 ≤ t.tm_min % 30 ∧ t.tm_min % 30 ≤ 16 then
    wwvb_pm_six_min dst_eod dst_bod t
  else if t.tm_sec = 0 ∨ t.tm_sec = 1 ∨ t.tm_sec = 5 ∨ t.tm_sec = 8 ∨
      t.tm_sec = 10 ∨ t.tm_sec = 11 ∨ t.tm_sec = 12 ∨ t.tm_sec = 29 ∨
      t.tm_sec = 39 ∨ t.tm_sec = 49 ∨ t.tm_sec = 59 ∨ t.tm_sec = 60 then
    some false
  else if t.tm_sec = 2 ∨ t.tm_sec = 3 ∨ t.tm_sec = 4 ∨ t.tm_sec = 6 ∨
      t.tm_sec = 7 ∨ t.tm_sec = 9 then
    some true
  else if 13 ≤ t.tm_sec ∧ t.tm_sec ≤ 17 then
    some (wwvb_pm_ecc t (minute_of_century t))
  else if (18 ≤ t.tm_sec ∧ t.tm_sec ≤ 28) ∨ (30 ≤ t.tm_sec ∧ t.tm_sec ≤ 38) ∨
      (40 ≤ t.tm_sec ∧ t.tm_sec ≤ 46) then
    some (wwvb_pm_time t (minute_of_century t))
  else if t.tm_sec = 47 ∨ t.tm_sec = 50 then some (dst_eod != dst_bod)
  else if t.tm_sec = 48 then some (!(dst_eod || dst_bod))
  else if t.tm_sec = 51 then some dst_eod
  else if t.tm_sec = 52 then some dst_bod
  else if t.tm_sec = 53 then some false
  else if t.tm_sec = 54 then some true
  else if t.tm_sec = 55 then some true
  else if t.tm_sec = 56 then some false
  else if t.tm_sec = 57 then some true
  else if t.tm_sec = 58 then some true
  else some false

/- The JJY realtime callback state machine, from src/ersatz-jjy.c lines
494-550 and 743-748.  The output buffer itself does not feed back into
the state, so the state evolution is modelled per frame; `tmOf`
abstracts `get_tm` (the `gmtime`/`localtime` decomposition of a
`time_t`). -/

structure JjyData where
  seconds : Nat
  sample_index : Nat
  wt_index : Nat
  high_samples : Nat
deriving DecidableEq

/-- One frame of `jjy_stream_callback`: advance the wavetable index mod
`W = WT_SIZE`, advance the sample index, and on reaching `SAMPLE_RATE`
samples move to the next second. -/
def jjy_step (W : Nat) (tmOf : Nat → Tm) (d : JjyData) : JjyData :=
  let w := (d.wt_index + 1) % W
  let si := d.sample_index + 1
  if SAMPLE_RATE ≤ si then
    { seconds := d.seconds + 1, sample_index := 0, wt_index := w,
      high_samples := sec_high_samples (tmOf (d.seconds + 1)) }
  else
    { d with wt_index := w, sample_index := si }

/-- The initial seeding in `main`: `sample_index` from the nanosecond
remainder, `wt_index` congruent to it mod `W = WT_SIZE`. -/
def jjy_seed (W : Nat) (tmOf : Nat → Tm) (sec ns : Nat) : JjyData :=
  let si := ns * SAMPLE_RATE / 1000000000
  { seconds := sec, sample_index := si, wt_index := si % W,
    high_samples := sec_high_samples (tmOf sec) }

/-- Model of the C library `gmtime`: the standard civil-calendar
decomposition of seconds since the Unix epoch (proleptic Gregorian,
no leap seconds), used to instantiate the abstract `tmOf` parameter on
concrete runs. -/
def gmtime_model (s : Nat) : Tm :=
  let days := s / 86400
  let rem := s % 86400
  let z := days + 719468
  let era := z / 146097
  let doe := z % 146097
  let yoe := (doe - doe / 1460 + doe / 36524 - doe / 146096) / 365
  let y := yoe + era * 400
  let doy := doe - (365 * yoe + yoe / 4 - yoe / 100)
  let mp := (5 * doy + 2) / 153
  let d := doy - (153 * mp + 2) / 5 + 1
  let m := if mp < 10 then mp + 3 else mp - 9
  let year := if m ≤ 2 then y + 1 else y
  let leap : Bool := decide (year % 4 = 0 ∧ ((year % 100 = 0) ↔ (year % 400 = 0)))
  let yday := if mp < 10 then doy + 59 + (if leap then 1 else 0) else doy - 306
  { tm_sec := rem % 60, tm_min := rem % 3600 / 60, tm_hour := rem / 3600,
    tm_mday := d, tm_mon := m - 1, tm_year := year - 1900,
    tm_wday := (days + 4) % 7, tm_yday := yday }

/-- `get_tm` with the `-j` (JST) flag: `gmtime` of the time shifted by
`NINE_HOURS = 32400` seconds. -/
def get_tm_jst (s : Nat) : Tm := gmtime_model (s + 32400)

/- The WWVB realtime callback state machine, from src/ersatz-wwvb.c
lines 787-826 and 1022-1026.  WT_SIZE is the macro constant 12 and
PS_INDEX = 6 is the wavetable index phase-shifted 180 degrees. -/

def PS_INDEX : Nat := 6

structure WwvbData where
  seconds : Nat
  sample_index : Nat
  wt_index : Nat
  low_samples : Nat
deriving DecidableEq

/-- One frame of `wwvb_stream_callback`: at the 100 ms mark
(`sample_index == SAMPLE_RATE / 10`) the wavetable index is set to
`PS_INDEX` or 0 according to the phase-modulation bit, then the index
advances mod 12 and the sample index advances, rolling to the next
second at `SAMPLE_RATE` samples.  `tmOf` abstracts `gmtime`;
`dstEodOf`/`dstBodOf` abstract the environment-dependent `wwvb_b57`/
`wwvb_b58`; `pmOf` abstracts the `bool` produced at runtime by
`wwvb_pm (&d->seconds)` — in the six-minute windows that evaluation
performs the undefined 32-bit shifts of `access_bit`, so its value is
not determined by the model and the state machine is quantified over
it. -/
def wwvb_step (tmOf : Nat → Tm) (dstEodOf dstBodOf pmOf : Nat → Bool)
    (d : WwvbData) : WwvbData :=
  let wt0 := if d.sample_index = SAMPLE_RATE / 10 then
    (if pmOf d.seconds then PS_INDEX else 0) else d.wt_index
  let w := (wt0 + 1) % 12
  let si := d.sample_index + 1
  if SAMPLE_RATE ≤ si then
    { seconds := d.seconds + 1, sample_index := 0, wt_index := w,
      low_samples := sec_low_samples (dstEodOf (d.seconds + 1))
        (dstBodOf (d.seconds + 1)) (tmOf (d.seconds + 1)) }
  else
    { d with wt_index := w, sample_index := si }

/-- The initial seeding of the WWVB stream in `main`. -/
def wwvb_seed (tmOf : Nat → Tm) (dstEodOf dstBodOf : Nat → Bool)
    (sec ns : Nat) : WwvbData :=
  let si := ns * SAMPLE_RATE / 1000000000
  { seconds := sec, sample_index := si, wt_index := si % 12,
    low_samples := sec_low_samples (dstEodOf sec) (dstBodOf sec) (tmOf sec) }

/- Helper round-trip lemmas on the raw fields, proved by finite check. -/

theorem minute_bcd_roundtrip : ∀ m : Nat, m < 60 →
    40 * b2n (decide (40 ≤ m)) + 20 * b2n (decide (20 ≤ m % 40))
      + 10 * b2n (decide (10 ≤ m % 20)) + 8 * b2n (decide (8 ≤ m % 10))
      + 4 * b2n (decide (4 ≤ m % 10 % 8)) + 2 * b2n (decide (2 ≤ m % 10 % 4))
      + b2n (decide (0 < m % 2)) = m := by decide

theorem hour_bcd_roundtrip : ∀ h : Nat, h < 24 →
    20 * b2n (decide (20 ≤ h)) + 10 * b2n (decide (10 ≤ h % 20))
      + 8 * b2n (decide (8 ≤ h % 10)) + 4 * b2n (decide (4 ≤ h % 10 % 8))
      + 2 * b2n (decide (2 ≤ h % 10 % 4)) + b2n (decide (0 < h % 2)) = h := by decide

theorem yday_bcd_roundtrip : ∀ d : Nat, d < 366 →
    200 * b2n (decide (200 ≤ d + 1)) + 100 * b2n (decide (100 ≤ (d + 1) % 200))
      + 80 * b2n (decide (80 ≤ (d + 1) % 100)) + 40 * b2n (decide (40 ≤ (d + 1) % 100 % 80))
      + 20 * b2n (decide (20 ≤ (d + 1) % 100 % 40)) + 10 * b2n (decide (10 ≤ (d + 1) % 20))
      + 8 * b2n (decide (8 ≤ (d + 1) % 10)) + 4 * b2n (decide (4 ≤ (d + 1) % 10 % 8))
      + 2 * b2n (decide (2 ≤ (d + 1) % 10 % 4)) + b2n (decide (0 < (d + 1) % 2))
      = d + 1 := by decide

theorem year_bcd_roundtrip : ∀ y : Nat, y < 100 →
    80 * b2n (decide (80 ≤ y)) + 40 * b2n (decide (40 ≤ y % 80))
      + 20 * b2n (decide (20 ≤ y % 40)) + 10 * b2n (decide (10 ≤ y % 20))
      + 8 * b2n (decide (8 ≤ y % 10)) + 4 * b2n (decide (4 ≤ y % 10 % 8))
      + 2 * b2n (decide (2 ≤ y % 10 % 4)) + b2n (decide (0 < y % 2)) = y := by decide

theorem wday_bcd_roundtrip : ∀ w : Nat, w < 7 →
    4 * b2n (decide (4 ≤ w)) + 2 * b2n (decide (2 ≤ w % 4))
      + b2n (decide (0 < w % 2)) = w := by decide

theorem jjy_minute_decode_eq (t : Tm) (h : t.tm_min ≤ 59) :
    jjy_minute_decode t = t.tm_min := by
  have := minute_bcd_roundtrip t.tm_min (by omega)
  simpa [jjy_minute_decode, jjy_b01, jjy_b02, jjy_b03, jjy_b05, jjy_b06,
    jjy_b07, jjy_b08] using this

theorem jjy_hour_decode_eq (t : Tm) (h : t.tm_hour ≤ 23) :
    jjy_hour_decode t = t.tm_hour := by
  have := hour_bcd_roundtrip t.tm_hour (by omega)
  simpa [jjy_hour_decode, jjy_b12, jjy_b13, jjy_b15, jjy_b16, jjy_b17,
    jjy_b18] using this

theorem jjy_yday_decode_eq (t : Tm) (h : t.tm_yday ≤ 365) :
    jjy_yday_decode t = t.tm_yday + 1 := by
  have := yday_bcd_roundtrip t.tm_yday (by omega)
  simpa [jjy_yday_decode, jjy_b22, jjy_b23, jjy_b25, jjy_b26, jjy_b27,
    jjy_b28, jjy_b30, jjy_b31, jjy_b32, jjy_b33] using this

theorem jjy_year_decode_eq (t : Tm) :
    jjy_year_decode t = t.tm_year % 100 := by
  have h20 : t.tm_year % 20 = t.tm_year % 100 % 20 :=
    (Nat.mod_mod_of_dvd _ (by norm_num)).symm
  have h10 : t.tm_year % 10 = t.tm_year % 100 % 10 :=
    (Nat.mod_mod_of_dvd _ (by norm_num)).symm
  have h2 : t.tm_year % 2 = t.tm_year % 100 % 2 :=
    (Nat.mod_mod_of_dvd _ (by norm_num)).symm
  have := year_bcd_roundtrip (t.tm_year % 100) (Nat.mod_lt _ (by norm_num))
  simp only [jjy_year_decode, jjy_b41, jjy_b42, jjy_b43, jjy_b44, jjy_b45,
    jjy_b46, jjy_b47, jjy_b48, h20, h10, h2]
  exact this

theorem jjy_wday_decode_eq (t : Tm) (h : t.tm_wday ≤ 6) :
    jjy_wday_decode t = t.tm_wday := by
  have := wday_bcd_roundtrip t.tm_wday (by omega)
  simpa [jjy_wday_decode, jjy_b50, jjy_b51, jjy_b52] using this

theorem wwvb_minute_decode_eq (t : Tm) (h : t.tm_min ≤ 59) :
    wwvb_minute_decode t = t.tm_min := by
  have := minute_bcd_roundtrip t.tm_min (by omega)
  simpa [wwvb_minute_decode, wwvb_b01, wwvb_b02, wwvb_b03, wwvb_b05,
    wwvb_b06, wwvb_b07, wwvb_b08] using this

theorem wwvb_hour_decode_eq (t : Tm) (h : t.tm_hour ≤ 23) :
    wwvb_hour_decode t = t.tm_hour := by
  have := hour_bcd_roundtrip t.tm_hour (by omega)
  simpa [wwvb_hour_decode, wwvb_b12, wwvb_b13, wwvb_b15, wwvb_b16,
    wwvb_b17, wwvb_b18] using this

theorem wwvb_yday_decode_eq (t : Tm) (h : t.tm_yday ≤ 365) :
    wwvb_yday_decode t = t.tm_yday + 1 := by
  have := yday_bcd_roundtrip t.tm_yday (by omega)
  simpa [wwvb_yday_decode, wwvb_b22, wwvb_b23, wwvb_b25, wwvb_b26,
    wwvb_b27, wwvb_b28, wwvb_b30, wwvb_b31, wwvb_b32, wwvb_b33] using this

theorem wwvb_year_decode_eq (t : Tm) :
    wwvb_year_decode t = t.tm_year % 100 := by
  have h20 : t.tm_year % 20 = t.tm_year % 100 % 20 :=
    (Nat.mod_mod_of_dvd _ (by norm_num)).symm
  have h10 : t.tm_year % 10 = t.tm_year % 100 % 10 :=
    (Nat.mod_mod_of_dvd _ (by norm_num)).symm
  have h2 : t.tm_year % 2 = t.tm_year % 100 % 2 :=
    (Nat.mod_mod_of_dvd _ (by norm_num)).symm
  have := year_bcd_roundtrip (t.tm_year % 100) (Nat.mod_lt _ (by norm_num))
  simp only [wwvb_year_decode, wwvb_b45, wwvb_b46, wwvb_b47, wwvb_b48,
    wwvb_b50, wwvb_b51, wwvb_b52, wwvb_b53, h20, h10, h2]
  exact this

/-- C1: for every valid broken-down time, summing the weights of the set
BCD bits recovers the minute field exactly, and likewise for the hour,
day-of-year (as `tm_yday + 1`), year-of-century (`tm_year % 100`) and
JJY weekday fields, in both the JJY and WWVB bit codecs. -/
theorem bcd_bits_roundtrip (t : Tm) (h : t.Valid) :
    jjy_minute_decode t = t.tm_min ∧ jjy_hour_decode t = t.tm_hour ∧
    jjy_yday_decode t = t.tm_yday + 1 ∧ jjy_year_decode t = t.tm_year % 100 ∧
    jjy_wday_decode t = t.tm_wday ∧
    wwvb_minute_decode t = t.tm_min ∧ wwvb_hour_decode t = t.tm_hour ∧
    wwvb_yday_decode t = t.tm_yday + 1 ∧
    wwvb_year_decode t = t.tm_year % 100 := by
  obtain ⟨-, hmin, hhour, hyday, hwday⟩ := h
  exact ⟨jjy_minute_decode_eq t hmin, jjy_hour_decode_eq t hhour,
    jjy_yday_decode_eq t hyday, jjy_year_decode_eq t,
    jjy_wday_decode_eq t hwday, wwvb_minute_decode_eq t hmin,
    wwvb_hour_decode_eq t hhour, wwvb_yday_decode_eq t hyday,
    wwvb_year_decode_eq t⟩

/-- Witness for `bcd_bits_roundtrip` at a concrete valid time
(2024-11-12, 13:42:05, yday 316, Tuesday). -/
theorem bcd_bits_roundtrip_check :
    jjy_minute_decode ⟨5, 42, 13, 12, 10, 124, 2, 316⟩ = 42 ∧
    jjy_hour_decode ⟨5, 42, 13, 12, 10, 124, 2, 316⟩ = 13 ∧
    jjy_yday_decode ⟨5, 42, 13, 12, 10, 124, 2, 316⟩ = 317 ∧
    jjy_year_decode ⟨5, 42, 13, 12, 10, 124, 2, 316⟩ = 24 ∧
    jjy_wday_decode ⟨5, 42, 13, 12, 10, 124, 2, 316⟩ = 2 ∧
    wwvb_minute_decode ⟨5, 42, 13, 12, 10, 124, 2, 316⟩ = 42 ∧
    wwvb_hour_decode ⟨5, 42, 13, 12, 10, 124, 2, 316⟩ = 13 ∧
    wwvb_yday_decode ⟨5, 42, 13, 12, 10, 124, 2, 316⟩ = 317 ∧
    wwvb_year_decode ⟨5, 42, 13, 12, 10, 124, 2, 316⟩ = 24 :=
  bcd_bits_roundtrip ⟨5, 42, 13, 12, 10, 124, 2, 316⟩ (by decide)

/-- C3: the JJY parity bit 37 is the XOR of the minute bits
01,02,03,05,06,07,08, and bit 36 is the XOR of the hour bits
12,13,15,16,17,18. -/
theorem jjy_parity_bits_xor (t : Tm) :
    jjy_b37 t = Bool.xor (jjy_b01 t) (Bool.xor (jjy_b02 t) (Bool.xor (jjy_b03 t)
      (Bool.xor (jjy_b05 t) (Bool.xor (jjy_b06 t)
        (Bool.xor (jjy_b07 t) (jjy_b08 t)))))) ∧
    jjy_b36 t = Bool.xor (jjy_b12 t) (Bool.xor (jjy_b13 t) (Bool.xor (jjy_b15 t)
      (Bool.xor (jjy_b16 t) (Bool.xor (jjy_b17 t) (jjy_b18 t))))) := by
  unfold jjy_b37 jjy_b36
  constructor
  · cases jjy_b01 t <;> cases jjy_b02 t <;> cases jjy_b03 t <;> cases jjy_b05 t <;>
      cases jjy_b06 t <;> cases jjy_b07 t <;> cases jjy_b08 t <;> rfl
  · cases jjy_b12 t <;> cases jjy_b13 t <;> cases jjy_b15 t <;> cases jjy_b16 t <;>
      cases jjy_b17 t <;> cases jjy_b18 t <;> rfl

set_option maxHeartbeats 2000000 in
theorem jjy_marker_iff (t : Tm) (h : t.tm_sec ≤ 60) :
    sec_high_samples t = JJY_M_HIGH_SAMPLES ↔
      t.tm_sec = 0 ∨ t.tm_sec = 9 ∨ t.tm_sec = 19 ∨ t.tm_sec = 29 ∨
      t.tm_sec = 39 ∨ t.tm_sec = 49 ∨ t.tm_sec = 59 ∨ t.tm_sec = 60 := by
  obtain ⟨sec, min, hour, mday, mon, year, wday, yday⟩ := t
  dsimp only at h ⊢
  interval_cases sec <;>
    (simp [sec_high_samples, JJY_M_HIGH_SAMPLES, JJY_B0_HIGH_SAMPLES,
       JJY_B1_HIGH_SAMPLES, SAMPLE_RATE]
     all_goals (split <;> simp))

set_option maxHeartbeats 2000000 in
theorem wwvb_marker_iff (dst_eod dst_bod : Bool) (t : Tm) (h : t.tm_sec ≤ 60) :
    sec_low_samples dst_eod dst_bod t = WWVB_M_LOW_SAMPLES ↔
      t.tm_sec = 0 ∨ t.tm_sec = 9 ∨ t.tm_sec = 19 ∨ t.tm_sec = 29 ∨
      t.tm_sec = 39 ∨ t.tm_sec = 49 ∨ t.tm_sec = 59 ∨ t.tm_sec = 60 := by
  obtain ⟨sec, min, hour, mday, mon, year, wday, yday⟩ := t
  dsimp only at h ⊢
  interval_cases sec <;>
    (simp [sec_low_samples, WWVB_M_LOW_SAMPLES, WWVB_B0_LOW_SAMPLES,
       WWVB_B1_LOW_SAMPLES, SAMPLE_RATE]
     all_goals (split <;> simp))

/-- C2: the second classifiers return the marker length exactly at the
marker seconds 0, 9, 19, 29, 39, 49, 59, 60; the marker length is 9600
samples for JJY and 38400 for WWVB, a binary 0 is 38400 samples for JJY
and 9600 for WWVB, and a binary 1 is 24000 samples for both. -/
theorem sec_classifier_marker_iff (dst_eod dst_bod : Bool) (t : Tm)
    (h : t.tm_sec ≤ 60) :
    (sec_high_samples t = JJY_M_HIGH_SAMPLES ↔
      t.tm_sec = 0 ∨ t.tm_sec = 9 ∨ t.tm_sec = 19 ∨ t.tm_sec = 29 ∨
      t.tm_sec = 39 ∨ t.tm_sec = 49 ∨ t.tm_sec = 59 ∨ t.tm_sec = 60) ∧
    (sec_low_samples dst_eod dst_bod t = WWVB_M_LOW_SAMPLES ↔
      t.tm_sec = 0 ∨ t.tm_sec = 9 ∨ t.tm_sec = 19 ∨ t.tm_sec = 29 ∨
      t.tm_sec = 39 ∨ t.tm_sec = 49 ∨ t.tm_sec = 59 ∨ t.tm_sec = 60) ∧
    JJY_M_HIGH_SAMPLES = 9600 ∧ WWVB_M_LOW_SAMPLES = 38400 ∧
    JJY_B0_HIGH_SAMPLES = 38400 ∧ WWVB_B0_LOW_SAMPLES = 9600 ∧
    JJY_B1_HIGH_SAMPLES = 24000 ∧ WWVB_B1_LOW_SAMPLES = 24000 :=
  ⟨jjy_marker_iff t h, wwvb_marker_iff dst_eod dst_bod t h,
    rfl, rfl, rfl, rfl, rfl, rfl⟩

/-- Witness for `sec_classifier_marker_iff` at a concrete time with
`tm_sec = 29` (a marker second). -/
theorem sec_classifier_marker_iff_check :
    sec_high_samples ⟨29, 42, 13, 12, 10, 124, 2, 316⟩ = JJY_M_HIGH_SAMPLES ∧
    sec_low_samples false false ⟨29, 42, 13, 12, 10, 124, 2, 316⟩
      = WWVB_M_LOW_SAMPLES :=
  ⟨((sec_classifier_marker_iff false false ⟨29, 42, 13, 12, 10, 124, 2, 316⟩
      (by decide)).1).mpr (by decide),
   ((sec_classifier_marker_iff false false ⟨29, 42, 13, 12, 10, 124, 2, 316⟩
      (by decide)).2.1).mpr (by decide)⟩

/- Lemmas about the argument parsers. -/

theorem parse_short_chars_eq_none {A : Type} (app : Char → Option (A → A))
    {c : Char} (hc : app c = none) :
    ∀ (cs : List Char), c ∈ cs → ∀ a, parse_short_chars app a cs = none := by
  intro cs
  induction cs with
  | nil => intro h; exact absurd h (List.not_mem_nil c)
  | cons c0 cs ih =>
    intro hmem a
    rcases List.mem_cons.mp hmem with h | h
    · subst h
      simp [parse_short_chars, hc]
    · cases hf : app c0 with
      | none => simp [parse_short_chars, hf]
      | some f =>
        simp [parse_short_chars, hf]
        exact ih h (f a)

theorem parse_one_arg_eq_none {A : Type} (app : Char → Option (A → A))
    (appLong : List Char → Option (A → A)) {shorts : List Char}
    (happ : ∀ c, c ∉ shorts → app c = none) {arg : List Char}
    (hbad : BadShortArg shorts arg) :
    ∀ a, parse_one_arg app appLong a arg = none := by
  obtain ⟨hpre, cs, rfl, c, hcmem, hcns⟩ := hbad
  intro a
  unfold parse_one_arg
  rw [if_neg hpre, if_pos (show ('-' :: cs).head? = some '-' from rfl)]
  exact parse_short_chars_eq_none app (happ c hcns) cs hcmem a

theorem parse_args_eq_none {A : Type} (app : Char → Option (A → A))
    (appLong : List Char → Option (A → A)) :
    ∀ (argv : List (List Char)),
      (∃ arg ∈ argv, ∀ a : A, parse_one_arg app appLong a arg = none) →
      ∀ a, parse_args app appLong a argv = none := by
  intro argv
  induction argv with
  | nil =>
    rintro ⟨arg, hm, -⟩
    exact absurd hm (List.not_mem_nil arg)
  | cons arg0 rest ih =>
    rintro ⟨arg, hmem, hfail⟩ a
    rcases List.mem_cons.mp hmem with h | h
    · subst h
      simp [parse_args, hfail a]
    · cases h0 : parse_one_arg app appLong a arg0 with
      | none => simp [parse_args, h0]
      | some a2 =>
        simp [parse_args, h0]
        exact ih ⟨arg, h, hfail⟩ a2

theorem parse_short_chars_pres {A : Type} (app : Char → Option (A → A))
    (P : A → Prop) (hpres : ∀ c f, app c = some f → ∀ a, P a → P (f a)) :
    ∀ cs (a a' : A), parse_short_chars app a cs = some a' → P a → P a' := by
  intro cs
  induction cs with
  | nil =>
    intro a a' h hp
    simp [parse_short_chars] at h
    subst h; exact hp
  | cons c0 cs ih =>
    intro a a' h hp
    cases hf : app c0 with
    | none => simp [parse_short_chars, hf] at h
    | some f =>
      simp [parse_short_chars, hf] at h
      exact ih (f a) a' h (hpres c0 f hf a hp)

theorem parse_short_chars_sets {A : Type} (app : Char → Option (A → A))
    (P : A → Prop) (hpres : ∀ c f, app c = some f → ∀ a, P a → P (f a))
    {c : Char} (hset : ∀ f, app c = some f → ∀ a, P (f a)) :
    ∀ cs (a a' : A), parse_short_chars app a cs = some a' → c ∈ cs → P a' := by
  intro cs
  induction cs with
  | nil => intro a a' _ hm; exact absurd hm (List.not_mem_nil c)
  | cons c0 cs ih =>
    intro a a' h hm
    cases hf : app c0 with
    | none => simp [parse_short_chars, hf] at h
    | some f =>
      simp [parse_short_chars, hf] at h
      rcases List.mem_cons.mp hm with hc | hc
      · subst hc
        exact parse_short_chars_pres app P hpres cs (f a) a' h (hset f hf a)
      · exact ih (f a) a' h hc

theorem parse_one_arg_pres {A : Type} (app : Char → Option (A → A))
    (appLong : List Char → Option (A → A)) (P : A → Prop)
    (hpres : ∀ c f, app c = some f → ∀ a, P a → P (f a))
    (hpresL : ∀ s f, appLong s = some f → ∀ a, P a → P (f a)) :
    ∀ arg (a a' : A), parse_one_arg app appLong a arg = some a' → P a → P a' := by
  intro arg a a' h hp
  unfold parse_one_arg at h
  split_ifs at h with h1 h2
  · cases hL : appLong (arg.drop 2) with
    | none => simp [hL] at h
    | some f =>
      simp [hL] at h
      subst h
      exact hpresL _ f hL a hp
  · exact parse_short_chars_pres app P hpres _ a a' h hp

theorem parse_args_pres {A : Type} (app : Char → Option (A → A))
    (appLong : List Char → Option (A → A)) (P : A → Prop)
    (hpres : ∀ c f, app c = some f → ∀ a, P a → P (f a))
    (hpresL : ∀ s f, appLong s = some f → ∀ a, P a → P (f a)) :
    ∀ argv (a a' : A), parse_args app appLong a argv = some a' → P a → P a' := by
  intro argv
  induction argv with
  | nil =>
    intro a a' h hp
    simp [parse_args] at h
    subst h; exact hp
  | cons arg0 rest ih =>
    intro a a' h hp
    cases h0 : parse_one_arg app appLong a arg0 with
    | none => simp [parse_args, h0] at h
    | some a2 =>
      simp [parse_args, h0] at h
      exact ih a2 a' h (parse_one_arg_pres app appLong P hpres hpresL arg0 a a2 h0 hp)

theorem parse_args_sets {A : Type} (app : Char → Option (A → A))
    (appLong : List Char → Option (A → A)) (P : A → Prop)
    (hpres : ∀ c f, app c = some f → ∀ a, P a → P (f a))
    (hpresL : ∀ s f, appLong s = some f → ∀ a, P a → P (f a))
    {arg : List Char}
    (hset : ∀ a a', parse_one_arg app appLong a arg = some a' → P a') :
    ∀ argv (a a' : A), parse_args app appLong a argv = some a' → arg ∈ argv → P a' := by
  intro argv
  induction argv with
  | nil => intro a a' _ hm; exact absurd hm (List.not_mem_nil arg)
  | cons arg0 rest ih =>
    intro a a' h hm
    cases h0 : parse_one_arg app appLong a arg0 with
    | none => simp [parse_args, h0] at h
    | some a2 =>
      simp [parse_args, h0] at h
      rcases List.mem_cons.mp hm with hc | hc
      · subst hc
        exact parse_args_pres app appLong P hpres hpresL rest a2 a' h (hset a a2 h0)
      · exact ih a2 a' h hc

theorem jjy_short_none : ∀ c : Char, c ∉ (['f', 'h', 'j', 'v'] : List Char) →
    jjy_apply_short c = none := by
  intro c hc
  unfold jjy_apply_short
  split_ifs <;> simp_all

theorem wwvb_short_none : ∀ c : Char, c ∉ (['h', 'v'] : List Char) →
    wwvb_apply_short c = none := by
  intro c hc
  unfold wwvb_apply_short
  split_ifs <;> simp_all

theorem jjy_setter_pres : ∀ c f, jjy_apply_short c = some f →
    ∀ a : JjyArgs, (a.help = true ∨ a.version = true) →
      ((f a).help = true ∨ (f a).version = true) := by
  intro c f hf a hp
  unfold jjy_apply_short at hf
  split_ifs at hf <;> (injection hf with hf; subst hf) <;>
    simp_all [fukushima_flag_setter, help_flag_setter, jst_flag_setter,
      version_flag_setter]

theorem jjy_long_pres : ∀ s f, jjy_apply_long s = some f →
    ∀ a : JjyArgs, (a.help = true ∨ a.version = true) →
      ((f a).help = true ∨ (f a).version = true) := by
  intro s f hf a hp
  unfold jjy_apply_long at hf
  split_ifs at hf <;> (injection hf with hf; subst hf) <;>
    simp_all [fukushima_flag_setter, help_flag_setter, jst_flag_setter,
      version_flag_setter]

theorem wwvb_setter_pres : ∀ c f, wwvb_apply_short c = some f →
    ∀ a : WwvbArgs, (a.help = true ∨ a.version = true) →
      ((f a).help = true ∨ (f a).version = true) := by
  intro c f hf a hp
  unfold wwvb_apply_short at hf
  split_ifs at hf <;> (injection hf with hf; subst hf) <;>
    simp_all [wwvb_help_flag_setter, wwvb_version_flag_setter]

theorem wwvb_long_pres : ∀ s f, wwvb_apply_long s = some f →
    ∀ a : WwvbArgs, (a.help = true ∨ a.version = true) →
      ((f a).help = true ∨ (f a).version = true) := by
  intro s f hf a hp
  unfold wwvb_apply_long at hf
  split_ifs at hf <;> (injection hf with hf; subst hf) <;>
    simp_all [wwvb_help_flag_setter, wwvb_version_flag_setter]

theorem jjy_request_sets (arg : List Char)
    (hreq : arg = "--help".toList ∨ arg = "--version".toList ∨
      (arg.take 2 ≠ ['-', '-'] ∧ ∃ cs, arg = '-' :: cs ∧ ('h' ∈ cs ∨ 'v' ∈ cs))) :
    ∀ (a a' : JjyArgs), parse_one_arg jjy_apply_short jjy_apply_long a arg = some a' →
      (a'.help = true ∨ a'.version = true) := by
  rcases hreq with rfl | rfl | ⟨hpre, cs, rfl, hcs⟩
  · intro a a' h
    have hev : parse_one_arg jjy_apply_short jjy_apply_long a ("--help".toList)
        = some (help_flag_setter a) := rfl
    rw [hev] at h
    injection h with h
    subst h
    exact Or.inl rfl
  · intro a a' h
    have hev : parse_one_arg jjy_apply_short jjy_apply_long a ("--version".toList)
        = some (version_flag_setter a) := rfl
    rw [hev] at h
    injection h with h
    subst h
    exact Or.inr rfl
  · intro a a' h
    unfold parse_one_arg at h
    rw [if_neg hpre, if_pos (show ('-' :: cs).head? = some '-' from rfl)] at h
    rcases hcs with hh | hv
    · refine parse_short_chars_sets jjy_apply_short _ jjy_setter_pres ?_ cs a a' h hh
      intro f hf a0
      have : jjy_apply_short 'h' = some help_flag_setter := rfl
      rw [this] at hf
      injection hf with hf
      subst hf
      exact Or.inl rfl
    · refine parse_short_chars_sets jjy_apply_short _ jjy_setter_pres ?_ cs a a' h hv
      intro f hf a0
      have : jjy_apply_short 'v' = some version_flag_setter := rfl
      rw [this] at hf
      injection hf with hf
      subst hf
      exact Or.inr rfl

theorem wwvb_request_sets (arg : List Char)
    (hreq : arg = "--help".toList ∨ arg = "--version".toList ∨
      (arg.take 2 ≠ ['-', '-'] ∧ ∃ cs, arg = '-' :: cs ∧ ('h' ∈ cs ∨ 'v' ∈ cs))) :
    ∀ (a a' : WwvbArgs), parse_one_arg wwvb_apply_short wwvb_apply_long a arg = some a' →
      (a'.help = true ∨ a'.version = true) := by
  rcases hreq with rfl | rfl | ⟨hpre, cs, rfl, hcs⟩
  · intro a a' h
    have hev : parse_one_arg wwvb_apply_short wwvb_apply_long a ("--help".toList)
        = some (wwvb_help_flag_setter a) := rfl
    rw [hev] at h
    injection h with h
    subst h
    exact Or.inl rfl
  · intro a a' h
    have hev : parse_one_arg wwvb_apply_short wwvb_apply_long a ("--version".toList)
        = some (wwvb_version_flag_setter a) := rfl
    rw [hev] at h
    injection h with h
    subst h
    exact Or.inr rfl
  · intro a a' h
    unfold parse_one_arg at h
    rw [if_neg hpre, if_pos (show ('-' :: cs).head? = some '-' from rfl)] at h
    rcases hcs with hh | hv
    · refine parse_short_chars_sets wwvb_apply_short _ wwvb_setter_pres ?_ cs a a' h hh
      intro f hf a0
      have : wwvb_apply_short 'h' = some wwvb_help_flag_setter := rfl
      rw [this] at hf
      injection hf with hf
      subst hf
      exact Or.inl rfl
    · refine parse_short_chars_sets wwvb_apply_short _ wwvb_setter_pres ?_ cs a a' h hv
      intro f hf a0
      have : wwvb_apply_short 'v' = some wwvb_version_flag_setter := rfl
      rw [this] at hf
      injection hf with hf
      subst hf
      exact Or.inr rfl

/-- C8: a single-dash argument containing an unrecognized short-flag
character makes parsing fail and `main` return exit code 1; if parsing
succeeds and help or version was requested, `main` returns exit code 0 —
in both the JJY and the WWVB programs. -/
theorem cli_exit_codes (argv : List (List Char)) :
    ((∃ arg ∈ argv, BadShortArg ['f', 'h', 'j', 'v'] arg) →
      jjy_main_exit argv = some 1) ∧
    (∀ args, parse_jjy_args argv = some args → RequestsHelpOrVersion argv →
      jjy_main_exit argv = some 0) ∧
    ((∃ arg ∈ argv, BadShortArg ['h', 'v'] arg) →
      wwvb_main_exit argv = some 1) ∧
    (∀ args, parse_wwvb_args argv = some args → RequestsHelpOrVersion argv →
      wwvb_main_exit argv = some 0) := by
  refine ⟨?_, ?_, ?_, ?_⟩
  · rintro ⟨arg, hm, hbad⟩
    have hfail := parse_one_arg_eq_none jjy_apply_short jjy_apply_long
      jjy_short_none hbad
    have hnone := parse_args_eq_none jjy_apply_short jjy_apply_long argv
      ⟨arg, hm, hfail⟩ ⟨false, false, false, false⟩
    unfold jjy_main_exit parse_jjy_args
    rw [hnone]
  · intro args hargs hreq
    obtain ⟨arg, hm, hcases⟩ := hreq
    have hp : args.help = true ∨ args.version = true :=
      parse_args_sets jjy_apply_short jjy_apply_long _ jjy_setter_pres
        jjy_long_pres (jjy_request_sets arg hcases) argv
        ⟨false, false, false, false⟩ args hargs hm
    unfold jjy_main_exit
    rw [hargs]
    rcases hp with hp | hp <;> simp [hp]
  · rintro ⟨arg, hm, hbad⟩
    have hfail := parse_one_arg_eq_none wwvb_apply_short wwvb_apply_long
      wwvb_short_none hbad
    have hnone := parse_args_eq_none wwvb_apply_short wwvb_apply_long argv
      ⟨arg, hm, hfail⟩ ⟨false, false⟩
    unfold wwvb_main_exit parse_wwvb_args
    rw [hnone]
  · intro args hargs hreq
    obtain ⟨arg, hm, hcases⟩ := hreq
    have hp : args.help = true ∨ args.version = true :=
      parse_args_sets wwvb_apply_short wwvb_apply_long _ wwvb_setter_pres
        wwvb_long_pres (wwvb_request_sets arg hcases) argv
        ⟨false, false⟩ args hargs hm
    unfold wwvb_main_exit
    rw [hargs]
    rcases hp with hp | hp <;> simp [hp]

/-- Witness for `cli_exit_codes`: `-x` is rejected with exit code 1 and
`-h` / `-v` exit with code 0, in both programs. -/
theorem cli_exit_codes_check :
    jjy_main_exit [['-', 'x']] = some 1 ∧ jjy_main_exit [['-', 'h']] = some 0 ∧
    wwvb_main_exit [['-', 'x']] = some 1 ∧ wwvb_main_exit [['-', 'v']] = some 0 :=
  ⟨(cli_exit_codes [['-', 'x']]).1
      ⟨['-', 'x'], by decide, by decide, ['x'], rfl, 'x', by decide, by decide⟩,
   (cli_exit_codes [['-', 'h']]).2.1 ⟨false, true, false, false⟩ (by decide)
      ⟨['-', 'h'], by decide, Or.inr (Or.inr ⟨by decide, ['h'], rfl, Or.inl (by decide)⟩)⟩,
   (cli_exit_codes [['-', 'x']]).2.2.1
      ⟨['-', 'x'], by decide, by decide, ['x'], rfl, 'x', by decide, by decide⟩,
   (cli_exit_codes [['-', 'v']]).2.2.2 ⟨false, true⟩ (by decide)
      ⟨['-', 'v'], by decide, Or.inr (Or.inr ⟨by decide, ['v'], rfl, Or.inr (by decide)⟩)⟩⟩

/-- C10 counterexample: the argument vector `-h -` contains the bare
argument `-`; parsing succeeds but the help flag is set, so it is not
true that for every argument vector containing the bare `-` no flag is
set. -/
theorem lone_dash_counterexample :
    (['-'] ∈ [['-', 'h'], ['-']]) ∧
    parse_jjy_args [['-', 'h'], ['-']] = some ⟨false, true, false, false⟩ ∧
    (⟨false, true, false, false⟩ : JjyArgs).help = true := by
  refine ⟨by decide, by decide, rfl⟩

/-- C10 (amended): a bare `-` argument is silently accepted as an empty
flag group, leaving the parser state unchanged, in both parsers; in
particular an argument vector consisting only of `-` parses successfully
with no flag set. -/
theorem lone_dash_accepted :
    (∀ a : JjyArgs, parse_one_arg jjy_apply_short jjy_apply_long a ['-'] = some a) ∧
    (∀ a : WwvbArgs, parse_one_arg wwvb_apply_short wwvb_apply_long a ['-'] = some a) ∧
    parse_jjy_args [['-']] = some ⟨false, false, false, false⟩ ∧
    parse_wwvb_args [['-']] = some ⟨false, false⟩ :=
  ⟨fun _ => rfl, fun _ => rfl, by decide, by decide⟩

/- Lemmas for `minute_of_century` (C7). -/

theorem century_loop_eq (fy : Nat) :
    ∀ n : Nat,
      (List.range n).foldl
        (fun total i =>
          if (fy + i) % 4 = 0 ∧ (((fy + i) % 100 = 0) ↔ ((fy + i) % 400 = 0)) then
            total + 366 * 1440
          else
            total + 365 * 1440)
        0
      = ∑ y in Finset.Ico fy (fy + n),
          1440 * (if (y % 4 = 0 ∧ y % 100 ≠ 0) ∨ y % 400 = 0 then 366 else 365) := by
  intro n
  induction n with
  | zero => simp
  | succ n ih =>
    rw [List.range_succ, List.foldl_append, ih]
    simp only [List.foldl_cons, List.foldl_nil]
    rw [show fy + (n + 1) = (fy + n) + 1 by omega,
      Finset.sum_Ico_succ_top (by omega : fy ≤ fy + n)]
    split_ifs with h1 h2 h2 <;> omega

/-- C7: `minute_of_century` computes exactly the spec's sum: for each
year from the most recent multiple of 100 up to (excluding) the current
year, 1440 minutes per day for 366 days in Gregorian leap years and 365
otherwise, plus `tm_yday · 1440 + tm_hour · 60 + tm_min`. -/
theorem minute_of_century_eq_spec (t : Tm) :
    minute_of_century t = minute_of_century_spec t := by
  simp only [minute_of_century, minute_of_century_spec]
  rw [century_loop_eq]
  have heq : (t.tm_year + 1900) - ((t.tm_year + 1900) % 100)
      + ((t.tm_year + 1900) - ((t.tm_year + 1900) - (t.tm_year + 1900) % 100))
      = t.tm_year + 1900 := by omega
  rw [heq]

/-- C5: evaluation of `access_bit` against the intended 64-bit access at
the failing inputs.  The 32-bit shift `1 << (index % 64)` makes
`access_bit` undefined (modelled `none`) for `index % 64 ≥ 31`, so bits
32 and 53 of the packed words — both reachable, e.g. index 53 at
`frame_sec = 180` of the six-minute window — are never read correctly;
for small shift amounts the code and the intended access agree. -/
theorem access_bit_narrow_shift_bug :
    access_bit HALF_HOUR_SEQ_BITS 32 = none ∧
    access_bit_spec HALF_HOUR_SEQ_BITS 32 = false ∧
    access_bit HALF_HOUR_SEQ_BITS 31 = none ∧
    access_bit FIXED_TIMING_WORD 53 = none ∧
    access_bit_spec FIXED_TIMING_WORD 53 = true ∧
    access_bit HALF_HOUR_SEQ_BITS 30 = some (access_bit_spec HALF_HOUR_SEQ_BITS 30) ∧
    access_bit HALF_HOUR_SEQ_BITS 0 = some (access_bit_spec HALF_HOUR_SEQ_BITS 0) ∧
    access_bit FIXED_TIMING_WORD 64 = some (access_bit_spec FIXED_TIMING_WORD 64) := by
  decide

/-- C9: outside the six-minute windows, the PM bit at second 19 is bit 0
of `minute_of_century`, the same bit emitted at second 46, so the two
always agree within one minute. -/
theorem wwvb_pm_sec19_sec46_bit0 (dst_eod dst_bod : Bool) (t : Tm)
    (h : ¬(10 ≤ t.tm_min % 30 ∧ t.tm_min % 30 ≤ 16)) :
    wwvb_pm dst_eod dst_bod { t with tm_sec := 19 }
      = some (Nat.testBit (minute_of_century { t with tm_sec := 19 }) 0) ∧
    wwvb_pm dst_eod dst_bod { t with tm_sec := 46 }
      = some (Nat.testBit (minute_of_century { t with tm_sec := 46 }) 0) ∧
    wwvb_pm dst_eod dst_bod { t with tm_sec := 19 }
      = wwvb_pm dst_eod dst_bod { t with tm_sec := 46 } := by
  have hbit : ∀ m : Nat, decide (m &&& (1 <<< 0) ≠ 0) = Nat.testBit m 0 := by
    intro m
    rw [Nat.testBit_zero]
    have h1 : m &&& (1 <<< 0) = m % 2 := by
      rw [show (1 <<< 0 : Nat) = 1 from rfl, Nat.and_one_is_mod]
    rw [h1]
    have h2 : (m % 2 ≠ 0) ↔ (m % 2 = 1) := by omega
    simp [h2]
  have e19 : wwvb_pm dst_eod dst_bod { t with tm_sec := 19 }
      = some (Nat.testBit (minute_of_century { t with tm_sec := 19 }) 0) := by
    unfold wwvb_pm
    rw [if_neg h]
    norm_num
    rw [show wwvb_pm_time { t with tm_sec := 19 } (minute_of_century { t with tm_sec := 19 })
        = decide ((minute_of_century { t with tm_sec := 19 }) &&& (1 <<< 0) ≠ 0) from rfl]
    rw [hbit, Nat.testBit_zero]
  have e46 : wwvb_pm dst_eod dst_bod { t with tm_sec := 46 }
      = some (Nat.testBit (minute_of_century { t with tm_sec := 46 }) 0) := by
    unfold wwvb_pm
    rw [if_neg h]
    norm_num
    rw [show wwvb_pm_time { t with tm_sec := 46 } (minute_of_century { t with tm_sec := 46 })
        = decide ((minute_of_century { t with tm_sec := 46 }) &&& (1 <<< 0) ≠ 0) from rfl]
    rw [hbit, Nat.testBit_zero]
  have emins : minute_of_century { t with tm_sec := 19 }
      = minute_of_century { t with tm_sec := 46 } := rfl
  exact ⟨e19, e46, by rw [e19, e46, emins]⟩

/-- Witness for `wwvb_pm_sec19_sec46_bit0` at a concrete time
(minute 5, so outside the six-minute windows). -/
theorem wwvb_pm_sec19_sec46_bit0_check :
    wwvb_pm false false ⟨19, 5, 13, 12, 10, 124, 2, 316⟩
      = wwvb_pm false false ⟨46, 5, 13, 12, 10, 124, 2, 316⟩ :=
  (wwvb_pm_sec19_sec46_bit0 false false ⟨0, 5, 13, 12, 10, 124, 2, 316⟩ (by decide)).2.2

/-- C6 counterexample: at 00:13:00 UTC on 2024-01-01 (minute mod 30 =
13, second 0) the code's PM bit is the undefined `access_bit` read at
index 53 (`none`), and the actual bit 53 of `0x42a5cb431d9a6b8b` is 1,
not 0 as claimed. -/
theorem wwvb_pm_bit53_counterexample :
    wwvb_pm false false ⟨0, 13, 0, 1, 0, 124, 1, 0⟩ = none ∧
    access_bit_spec FIXED_TIMING_WORD 53 = true := by
  decide

/-- C6 (amended): for minute mod 30 = 13 and second 0 the PM bit is the
`access_bit` read of the fixed timing word at `frame_sec − 127 = 53`;
that read is undefined in the code (32-bit shift by 53, modelled
`none`), and under the spec's intended access semantics bit 53 of
`0x42a5cb431d9a6b8b` is 1. -/
theorem wwvb_pm_sixmin_frame180 (dst_eod dst_bod : Bool) (t : Tm)
    (hmin : t.tm_min % 30 = 13) (hsec : t.tm_sec = 0) :
    wwvb_pm dst_eod dst_bod t = access_bit FIXED_TIMING_WORD 53 ∧
    access_bit FIXED_TIMING_WORD 53 = none ∧
    access_bit_spec FIXED_TIMING_WORD 53 = true := by
  refine ⟨?_, by decide, by decide⟩
  have h30 : 10 ≤ t.tm_min % 30 ∧ t.tm_min % 30 ≤ 16 := by omega
  have h10 : t.tm_min % 10 = 3 := by omega
  unfold wwvb_pm
  rw [if_pos h30]
  unfold wwvb_pm_six_min
  rw [h10, hsec]
  norm_num

/-- Witness for `wwvb_pm_sixmin_frame180` at 00:13:00 UTC on
2024-01-01. -/
theorem wwvb_pm_sixmin_frame180_check :
    wwvb_pm false false ⟨0, 13, 0, 1, 0, 124, 1, 0⟩
      = access_bit FIXED_TIMING_WORD 53 :=
  (wwvb_pm_sixmin_frame180 false false ⟨0, 13, 0, 1, 0, 124, 1, 0⟩
    (by decide) (by decide)).1

/- Lemmas for the JJY callback state machine (C4). -/

theorem jjy_step_sample_wt (W : Nat) (tmOf : Nat → Tm) (d : JjyData) :
    (jjy_step W tmOf d).sample_index
      = (if SAMPLE_RATE ≤ d.sample_index + 1 then 0 else d.sample_index + 1) ∧
    (jjy_step W tmOf d).wt_index = (d.wt_index + 1) % W := by
  simp only [jjy_step]
  split_ifs with hc <;> simp

theorem jjy_run_formula (W : Nat) (tmOf : Nat → Tm) :
    ∀ (n : Nat) (d : JjyData), d.sample_index < SAMPLE_RATE → d.wt_index < W →
      ((jjy_step W tmOf)^[n] d).sample_index = (d.sample_index + n) % SAMPLE_RATE ∧
      ((jjy_step W tmOf)^[n] d).wt_index = (d.wt_index + n) % W := by
  intro n
  induction n with
  | zero =>
    intro d hs hw
    simp [Nat.mod_eq_of_lt hs, Nat.mod_eq_of_lt hw]
  | succ n ih =>
    intro d hs hw
    rw [Function.iterate_succ_apply']
    obtain ⟨ihs, ihw⟩ := ih d hs hw
    obtain ⟨hstep_s, hstep_w⟩ := jjy_step_sample_wt W tmOf ((jjy_step W tmOf)^[n] d)
    constructor
    · rw [hstep_s, ihs]
      simp only [SAMPLE_RATE]
      split_ifs with hc <;> omega
    · rw [hstep_w, ihw, Nat.mod_add_mod, Nat.add_assoc]

/-- C4 counterexample: the Fukushima JJY configuration (WT_SIZE = 18,
JST) seeded exactly on a second boundary reaches, after one full second
(48000 frames, i.e. 750 callback invocations of 64 frames), a state with
`sample_index = 0` but `wt_index = 12`, which is neither 0 nor
WT_SIZE / 2 = 9: 48000 is not a multiple of 18. -/
theorem fukushima_phase_counterexample :
    ((jjy_step 18 get_tm_jst)^[48000] (jjy_seed 18 get_tm_jst 1700000000 0)).sample_index = 0 ∧
    ((jjy_step 18 get_tm_jst)^[48000] (jjy_seed 18 get_tm_jst 1700000000 0)).wt_index = 12 ∧
    ¬((12 : Nat) = 0 ∨ (12 : Nat) = 18 / 2) := by
  have hsi : (jjy_seed 18 get_tm_jst 1700000000 0).sample_index < SAMPLE_RATE := by
    simp [jjy_seed, SAMPLE_RATE]
  have hwi : (jjy_seed 18 get_tm_jst 1700000000 0).wt_index < 18 := by
    simp [jjy_seed, SAMPLE_RATE]
  obtain ⟨hs, hw⟩ := jjy_run_formula 18 get_tm_jst 48000 _ hsi hwi
  refine ⟨?_, ?_, by decide⟩
  · rw [hs]
    simp [jjy_seed, SAMPLE_RATE]
  · rw [hw]
    simp [jjy_seed, SAMPLE_RATE]

theorem wwvb_step_sample_wt (tmOf : Nat → Tm)
    (dstEodOf dstBodOf pmOf : Nat → Bool) (d : WwvbData) :
    (wwvb_step tmOf dstEodOf dstBodOf pmOf d).sample_index
      = (if SAMPLE_RATE ≤ d.sample_index + 1 then 0 else d.sample_index + 1) ∧
    (wwvb_step tmOf dstEodOf dstBodOf pmOf d).wt_index
      = ((if d.sample_index = SAMPLE_RATE / 10 then
            (if pmOf d.seconds then PS_INDEX else 0) else d.wt_index) + 1) % 12 := by
  simp only [wwvb_step]
  split_ifs <;> simp

theorem wwvb_step_inv (tmOf : Nat → Tm) (dstEodOf dstBodOf pmOf : Nat → Bool)
    (d : WwvbData)
    (h : d.sample_index < SAMPLE_RATE ∧
      (d.wt_index = d.sample_index % 12 ∨ d.wt_index = (d.sample_index + 6) % 12)) :
    (wwvb_step tmOf dstEodOf dstBodOf pmOf d).sample_index < SAMPLE_RATE ∧
      ((wwvb_step tmOf dstEodOf dstBodOf pmOf d).wt_index
          = (wwvb_step tmOf dstEodOf dstBodOf pmOf d).sample_index % 12 ∨
        (wwvb_step tmOf dstEodOf dstBodOf pmOf d).wt_index
          = ((wwvb_step tmOf dstEodOf dstBodOf pmOf d).sample_index + 6) % 12) := by
  obtain ⟨hs, hw⟩ := h
  obtain ⟨h1, h2⟩ := wwvb_step_sample_wt tmOf dstEodOf dstBodOf pmOf d
  rw [h1, h2]
  simp only [SAMPLE_RATE, PS_INDEX] at *
  split_ifs <;> omega

theorem wwvb_run_inv (tmOf : Nat → Tm) (dstEodOf dstBodOf pmOf : Nat → Bool) :
    ∀ (n : Nat) (d : WwvbData),
      d.sample_index < SAMPLE_RATE ∧
        (d.wt_index = d.sample_index % 12 ∨ d.wt_index = (d.sample_index + 6) % 12) →
      ((wwvb_step tmOf dstEodOf dstBodOf pmOf)^[n] d).sample_index < SAMPLE_RATE ∧
        (((wwvb_step tmOf dstEodOf dstBodOf pmOf)^[n] d).wt_index
            = ((wwvb_step tmOf dstEodOf dstBodOf pmOf)^[n] d).sample_index % 12 ∨
          ((wwvb_step tmOf dstEodOf dstBodOf pmOf)^[n] d).wt_index
            = (((wwvb_step tmOf dstEodOf dstBodOf pmOf)^[n] d).sample_index + 6) % 12) := by
  intro n
  induction n with
  | zero => intro d h; exact h
  | succ n ih =>
    intro d h
    rw [Function.iterate_succ_apply']
    exact wwvb_step_inv tmOf dstEodOf dstBodOf pmOf _ (ih d h)

/-- C4 (amended): for the stream configurations with WT_SIZE = 12
(standard JJY and WWVB, where WT_SIZE divides SAMPLE_RATE), every state
reachable from the seeded initial state has `wt_index` equal to 0 or to
WT_SIZE / 2 = 6 whenever `sample_index = 0` — the JJY callback never
flips the phase, the WWVB callback may flip it at the 100 ms mark; the
Fukushima variant (WT_SIZE = 18) violates the invariant. -/
theorem boundary_phase_invariant_wt12 (tmOf : Nat → Tm)
    (dstEodOf dstBodOf pmOf : Nat → Bool) (sec ns n : Nat)
    (hns : ns < 1000000000) :
    (((jjy_step 12 tmOf)^[n] (jjy_seed 12 tmOf sec ns)).sample_index = 0 →
      ((jjy_step 12 tmOf)^[n] (jjy_seed 12 tmOf sec ns)).wt_index = 0 ∨
      ((jjy_step 12 tmOf)^[n] (jjy_seed 12 tmOf sec ns)).wt_index = 12 / 2) ∧
    (((wwvb_step tmOf dstEodOf dstBodOf pmOf)^[n]
        (wwvb_seed tmOf dstEodOf dstBodOf sec ns)).sample_index = 0 →
      ((wwvb_step tmOf dstEodOf dstBodOf pmOf)^[n]
        (wwvb_seed tmOf dstEodOf dstBodOf sec ns)).wt_index = 0 ∨
      ((wwvb_step tmOf dstEodOf dstBodOf pmOf)^[n]
        (wwvb_seed tmOf dstEodOf dstBodOf sec ns)).wt_index = 12 / 2) := by
  constructor
  · intro h0
    left
    have hsi : (jjy_seed 12 tmOf sec ns).sample_index < SAMPLE_RATE := by
      simp only [jjy_seed, SAMPLE_RATE]
      omega
    have hwi : (jjy_seed 12 tmOf sec ns).wt_index < 12 := by
      simp only [jjy_seed]
      omega
    obtain ⟨hs, hw⟩ := jjy_run_formula 12 tmOf n _ hsi hwi
    rw [hw]
    rw [hs] at h0
    simp only [jjy_seed, SAMPLE_RATE] at h0 ⊢
    omega
  · intro h0
    have hseed : (wwvb_seed tmOf dstEodOf dstBodOf sec ns).sample_index < SAMPLE_RATE ∧
        ((wwvb_seed tmOf dstEodOf dstBodOf sec ns).wt_index
            = (wwvb_seed tmOf dstEodOf dstBodOf sec ns).sample_index % 12 ∨
          (wwvb_seed tmOf dstEodOf dstBodOf sec ns).wt_index
            = ((wwvb_seed tmOf dstEodOf dstBodOf sec ns).sample_index + 6) % 12) := by
      constructor
      · simp only [wwvb_seed, SAMPLE_RATE]
        omega
      · exact Or.inl rfl
    obtain ⟨-, hw⟩ := wwvb_run_inv tmOf dstEodOf dstBodOf pmOf n _ hseed
    rw [h0] at hw
    omega

/-- Witness for `boundary_phase_invariant_wt12` at the seed itself
(start exactly on a second boundary), for both callbacks. -/
theorem boundary_phase_invariant_wt12_check :
    (((jjy_step 12 gmtime_model)^[0] (jjy_seed 12 gmtime_model 0 0)).wt_index = 0 ∨
     ((jjy_step 12 gmtime_model)^[0] (jjy_seed 12 gmtime_model 0 0)).wt_index = 12 / 2) ∧
    (((wwvb_step gmtime_model (fun _ => false) (fun _ => false) (fun _ => false))^[0]
        (wwvb_seed gmtime_model (fun _ => false) (fun _ => false) 0 0)).wt_index = 0 ∨
     ((wwvb_step gmtime_model (fun _ => false) (fun _ => false) (fun _ => false))^[0]
        (wwvb_seed gmtime_model (fun _ => false) (fun _ => false) 0 0)).wt_index = 12 / 2) :=
  have h := boundary_phase_invariant_wt12 gmtime_model (fun _ => false)
    (fun _ => false) (fun _ => false) 0 0 0 (by norm_num)
  ⟨h.1 rfl, h.2 rfl⟩
